import Mathlib

/-!
Shallow embedding of `mgt-person-card.graph.ts` (Microsoft Graph Toolkit,
person-card data assembler) and proofs about its orchestration logic.

JavaScript values flowing through the module (batch response contents,
card-state fields, direct-report entries) are modelled by `JSValue`;
JS truthiness is `JSValue.truthy`.  The asynchronous environment the
module runs in (static section configuration, cache-service configuration,
clock, cache contents, and the outcomes of the two fallible remote calls)
is an explicit `Env` record, and `getPersonCardGraphData` is a pure
function from that environment to a `FetchResult` recording the returned
card state together with the observable effects (batch requests built,
whether the batch was executed, whether the profile fetch was attempted,
and the cache after the call).
-/

/-- JavaScript-like values: `undefined`, `null`, booleans, integers,
strings, arrays and objects (association lists of fields). -/
inductive JSValue where
  | undefined : JSValue
  | nul : JSValue
  | bool (b : Bool) : JSValue
  | num (n : Int) : JSValue
  | str (s : String) : JSValue
  | arr (elems : List JSValue) : JSValue
  | obj (fields : List (String × JSValue)) : JSValue

/-- JS truthiness: `undefined`, `null`, `false`, `0` and `""` are falsy;
every array and object is truthy. -/
def JSValue.truthy : JSValue → Bool
  | .undefined => false
  | .nul => false
  | .bool b => b
  | .num n => n != 0
  | .str s => s != ""
  | .arr _ => true
  | .obj _ => true

/-- Nullish values (`undefined` and `null`), for optional chaining. -/
def JSValue.isNullish : JSValue → Bool
  | .undefined => true
  | .nul => true
  | _ => false

/-- Property access `v.k`: the named field of an object, `undefined`
otherwise (non-objects have no own properties in this model). -/
def JSValue.getField : JSValue → String → JSValue
  | .obj fields, k =>
    match fields.lookup k with
    | some v => v
    | none => .undefined
  | _, _ => .undefined

/-- Optional chaining `v?.k`: `undefined` when `v` is nullish, else `v.k`. -/
def optChainField (v : JSValue) (k : String) : JSValue :=
  if v.isNullish then .undefined else v.getField k

/-- Card state: the mutable record `data` accumulating fields keyed by
batch-request name (`MgtPersonCardState`), modelled as an association
list written through `setField` (JS property assignment). -/
abbrev CardState := List (String × JSValue)

/-- Remove every binding of key `k` (helper for JS property assignment). -/
def eraseKey (d : CardState) (k : String) : CardState :=
  match d with
  | [] => []
  | (k1, v) :: rest => if k1 = k then eraseKey rest k else (k1, v) :: eraseKey rest k

/-- JS property assignment `d[k] = v`: the new binding shadows any old one. -/
def setField (d : CardState) (k : String) (v : JSValue) : CardState :=
  (k, v) :: eraseKey d k

/-- Field read on a card state (association-list lookup). -/
def getState (d : CardState) (k : String) : Option JSValue :=
  match d with
  | [] => none
  | (k1, v) :: rest => if k1 = k then some v else getState rest k

/-- The `personType` descriptor carried by some entity references:
`subclass` and `class` are optional string fields (`cls` stands for the
JS field `class`, a Lean keyword). -/
structure PersonType where
  subclass : Option String
  cls : Option String

/-- Entity reference (`IDynamicPerson`): an id, whether a `classification`
field is present, an optional `personType` descriptor (`none` when the
field is absent), and an optional email address. -/
structure IDynamicPerson where
  id : String
  hasClassification : Bool
  personType : Option PersonType
  mail : Option String

/-- Modelled from the spec: the email-derivation helper
`getEmailFromGraphEntity` lives in `graph/graph.people` which is not under
`src/`; per the spec an entity reference "identifies a directory entity by
id and optionally an email address", so the model reads the optional email
off the entity reference. -/
def getEmailFromGraphEntity (personDetails : IDynamicPerson) : Option String :=
  personDetails.mail

/-- Classification rule (lines 63-66): an entity is a contact or group
when a `classification` field is present, or a `personType` descriptor
has subclass `PersonalContact` or class `Group`. -/
def isContactOrGroup (personDetails : IDynamicPerson) : Bool :=
  personDetails.hasClassification ||
    (match personDetails.personType with
     | some pt => pt.subclass == some "PersonalContact" || pt.cls == some "Group"
     | none => false)

/-- Section-enablement configuration for the organization section
(`MgtPersonCardConfig.sections.organization`), with its works-with
sub-flag. -/
structure OrgSection where
  showWorksWith : Bool

/-- Modelled from the spec: `MgtPersonCardConfig` is not under `src/`;
the spec's configuration contract is "a static section-enablement
structure with boolean/nested flags for organization (and its works-with
sub-flag), mail, files, profile".  `organization = none` models a falsy
organization section. -/
structure PersonCardSections where
  organization : Option OrgSection
  mailMessages : Bool
  files : Bool
  profile : Bool

/-- Modelled from the spec: `CacheService.config` (mgt-element) is not
under `src/`; the users-store invalidation period falls back to the
default when unset/zero (the JS `||`). -/
structure CacheConfig where
  usersInvalidationPeriod : Int
  defaultInvalidationPeriod : Int

/-- Invalidation period for the card-state store (lines 33-34):
`CacheService.config.users.invalidationPeriod || CacheService.config.defaultInvalidationPeriod`,
with the config passed explicitly (it is ambient static state in the
source). -/
def getCardStateInvalidationTime (config : CacheConfig) : Int :=
  if config.usersInvalidationPeriod != 0 then config.usersInvalidationPeriod
  else config.defaultInvalidationPeriod

/-- Cached card state (`CacheCardState extends MgtPersonCardState, CacheItem`):
the stored card-state record plus the write timestamp `timeCached`. -/
structure CacheCardState where
  data : CardState
  timeCached : Int

/-- Cache contents: entity id to cached card state. -/
abbrev CardCache := List (String × CacheCardState)

/-- Modelled from the spec: `CacheStore.getValue` (mgt-element) is not
under `src/`; the spec's cache collaborator contract is a key-value store
keyed by entity id. -/
def cacheGetValue (cache : CardCache) (key : String) : Option CacheCardState :=
  match cache with
  | [] => none
  | (k1, v) :: rest => if k1 = key then some v else cacheGetValue rest key

/-- Modelled from the spec: `CacheStore.putValue` (mgt-element) is not
under `src/`; per the spec a cache entry is "card state plus a write
timestamp", so a write stores the record stamped with the current time,
overwriting any prior entry for the key. -/
def cachePutValue (cache : CardCache) (key : String) (data : CardState)
    (now : Int) : CardCache :=
  (key, { data := data, timeCached := now }) :: cache.filter (fun kv => kv.1 != key)

/-- Batch request descriptor: the name it is registered under, the
resource path, the required permission scopes (`none` when the `batch.get`
call passes no scopes), and extra headers. -/
structure BatchRequest where
  key : String
  path : String
  scopes : Option (List String)
  headers : List (String × String)

/-- Batch registration `batch.get(key, path, scopes?, headers?)`: appends
one named request descriptor. -/
def batchGet (batch : List BatchRequest) (key path : String)
    (scopes : Option (List String)) (headers : List (String × String)) :
    List BatchRequest :=
  batch ++ [{ key := key, path := path, scopes := scopes, headers := headers }]

/-- Field-selection list requested for users (line 20-21). -/
def userProperties : String :=
  "businessPhones,companyName,department,displayName,givenName,jobTitle,mail,mobilePhone,officeLocation,preferredLanguage,surname,userPrincipalName,id,accountEnabled"

/-- Batch key `directReports` (lines 23-29). -/
def batchKeys.directReports : String := "directReports"

/-- Batch key `files`. -/
def batchKeys.files : String := "files"

/-- Batch key `messages`. -/
def batchKeys.messages : String := "messages"

/-- Batch key `people`. -/
def batchKeys.people : String := "people"

/-- Batch key `person`. -/
def batchKeys.person : String := "person"

/-- Modelled from the spec: `validUserByIdScopes` (graph/graph.user) is
not under `src/`; the spec requires "user-read scopes" for the
org-structure self request, a fixed non-empty list. -/
def validUserByIdScopes : List String :=
  ["User.Read.All", "User.ReadWrite.All", "Directory.Read.All"]

/-- Modelled from the spec: `validInsightScopes` (graph/graph.files) is
not under `src/`; the spec requires an "insights scope" for the files
request, a fixed non-empty list. -/
def validInsightScopes : List String :=
  ["Sites.Read.All"]

/-- Scopes for the works-with request (line 139). -/
def validPeopleScopes : List String := ["People.Read.All"]

/-- Scopes for the mail-search request (line 143). -/
def validMailSearchScopes : List String := ["Mail.ReadBasic", "Mail.Read", "Mail.ReadWrite"]

/-- Scopes for the profile fetch (line 160). -/
def validProfileScopes : List String := ["User.Read.All", "User.ReadWrite.All"]

/-- Scopes for chat creation (line 175). -/
def validCreateChatScopes : List String := ["Chat.Create", "Chat.ReadWrite"]

/-- Scopes for sending a chat message (line 208). -/
def validSendChatMessageScopes : List String := ["ChatMessage.Send", "Chat.ReadWrite"]

/-- Org-structure request builder (lines 124-137): registers the `person`
entry (self with expanded manager chain, eventual consistency header) and
the `directReports` entry; the latter `batch.get` call passes no scopes. -/
def buildOrgStructureRequest (batch : List BatchRequest) (userId : String) :
    List BatchRequest :=
  let expandManagers := "manager($levels=max;$select=" ++ userProperties ++ ")"
  let batch := batchGet batch batchKeys.person
    ("users/" ++ userId ++ "?$expand=" ++ expandManagers ++ "&$select=" ++
      userProperties ++ "&$count=true")
    (some validUserByIdScopes)
    [("ConsistencyLevel", "eventual")]
  batchGet batch batchKeys.directReports
    ("users/" ++ userId ++ "/directReports?$select=" ++ userProperties)
    none []

/-- Works-with request builder (lines 140-142). -/
def buildWorksWithRequest (batch : List BatchRequest) (userId : String) :
    List BatchRequest :=
  batchGet batch batchKeys.people
    ("users/" ++ userId ++ "/people?$filter=personType/class eq \x27Person\x27")
    (some validPeopleScopes) []

/-- Mail-search request builder (lines 144-146). -/
def buildMessagesWithUserRequest (batch : List BatchRequest) (emailAddress : String) :
    List BatchRequest :=
  batchGet batch batchKeys.messages
    ("me/messages?$search=\"from:" ++ emailAddress ++ "\"")
    (some validMailSearchScopes) []

/-- Files request builder (lines 148-158): shared-insights path when a
truthy email address is given, used-insights path otherwise. -/
def buildFilesRequest (batch : List BatchRequest) (emailAddress : Option String) :
    List BatchRequest :=
  let request : String :=
    match emailAddress with
    | some e =>
      if e != "" then
        "me/insights/shared?$filter=lastshared/sharedby/address eq \x27" ++ e ++ "\x27"
      else "me/insights/used"
    | none => "me/insights/used"
  batchGet batch batchKeys.files request (some validInsightScopes) []

/-- Conditional org-structure assembly (lines 70-78): for non-contact
non-group entities with the organization section enabled, register the
org-structure entries and, when `showWorksWith` is set, the works-with
entry. -/
def addOrgRequests (sections : PersonCardSections) (personDetails : IDynamicPerson)
    (batch : List BatchRequest) : List BatchRequest :=
  if !isContactOrGroup personDetails then
    match sections.organization with
    | some org =>
      let b := buildOrgStructureRequest batch personDetails.id
      if org.showWorksWith then buildWorksWithRequest b personDetails.id else b
    | none => batch
  else batch

/-- Conditional mail-search assembly (lines 80-82): registered when the
mail section is enabled and a truthy email address was derived. -/
def addMessagesRequest (sections : PersonCardSections) (email : Option String)
    (batch : List BatchRequest) : List BatchRequest :=
  match sections.mailMessages, email with
  | true, some e => if e != "" then buildMessagesWithUserRequest batch e else batch
  | _, _ => batch

/-- Conditional files assembly (lines 84-86): registered when the files
section is enabled, with `null` in place of the email for the current
user. -/
def addFilesRequest (sections : PersonCardSections) (email : Option String)
    (isMe : Bool) (batch : List BatchRequest) : List BatchRequest :=
  if sections.files then buildFilesRequest batch (if isMe then none else email)
  else batch

/-- Full batch assembly on a cache miss (lines 68-86), in source order:
org-structure / works-with, then mail-search, then files. -/
def buildBatch (sections : PersonCardSections) (personDetails : IDynamicPerson)
    (isMe : Bool) : List BatchRequest :=
  let email := getEmailFromGraphEntity personDetails
  addFilesRequest sections email isMe
    (addMessagesRequest sections email
      (addOrgRequests sections personDetails []))

/-- Payload extraction for one batch response (line 99):
`value.content?.value || value.content`. -/
def extractPayload (content : JSValue) : JSValue :=
  let v := optChainField content "value"
  if v.truthy then v else content

/-- Response merge loop (lines 96-101): for each named response, store its
extracted payload under that name in the result record. -/
def mergeResponses (resp : List (String × JSValue)) : CardState :=
  resp.foldl (fun d kv => setField d kv.1 (extractPayload kv.2)) []

/-- Direct-reports post-filter (lines 114-117): when `data.directReports`
is a non-empty array, keep only entries with truthy `accountEnabled`. -/
def filterDirectReports (data : CardState) : CardState :=
  match getState data "directReports" with
  | some (JSValue.arr reports) =>
    if reports.length > 0 then
      setField data "directReports"
        (JSValue.arr (reports.filter (fun report => (report.getField "accountEnabled").truthy)))
    else data
  | _ => data

/-- Record produced from the batch execution alone (lines 88-101): empty
when `batch.executeAll()` threw, the merged responses otherwise. -/
def batchData (outcome : Option (List (String × JSValue))) : CardState :=
  match outcome with
  | some resp => mergeResponses resp
  | none => []

/-- Environment of one `getPersonCardGraphData` call: the static section
configuration, the cache-service configuration, the clock (`Date.now()`),
the cache contents, and the outcomes of the two fallible remote calls.
`batchOutcome = none` models `batch.executeAll()` throwing, and
`some resp` models it resolving with the named response contents `resp`
(each paired value is that response's `content`).  `profileOutcome = none`
models the profile fetch throwing, `some p` models it resolving with
payload `p`. -/
structure Env where
  sections : PersonCardSections
  cacheConfig : CacheConfig
  now : Int
  cache : CardCache
  batchOutcome : Option (List (String × JSValue))
  profileOutcome : Option JSValue

/-- Observable result of one `getPersonCardGraphData` call: the returned
card state, the batch requests registered, whether the batch was executed
and the profile fetch attempted, the cache afterwards, and whether a
cache write happened. -/
structure FetchResult where
  state : CardState
  requests : List BatchRequest
  batchExecuted : Bool
  profileFetched : Bool
  cacheAfter : CardCache
  cacheWritten : Bool

/-- Card-state assembly after batch execution (lines 88-112): a thrown
batch yields an empty record, otherwise responses are merged; then, for
non-contact non-group entities with the profile section enabled, the
profile fetch runs and a truthy resolved profile is stored under
`profile` (a thrown profile fetch is swallowed). -/
def assembleCardData (env : Env) (personDetails : IDynamicPerson) : CardState :=
  let data := batchData env.batchOutcome
  if !isContactOrGroup personDetails && env.sections.profile then
    match env.profileOutcome with
    | some p => if p.truthy then setField data "profile" p else data
    | none => data
  else data

/-- Cache-miss path of `getPersonCardGraphData` (lines 63-121): assemble
and execute the batch, merge responses, optionally fetch the profile,
filter disabled direct reports, write the record to the cache, return it. -/
def fetchMiss (env : Env) (personDetails : IDynamicPerson) (isMe : Bool) :
    FetchResult :=
  let data := filterDirectReports (assembleCardData env personDetails)
  { state := data
    requests := buildBatch env.sections personDetails isMe
    batchExecuted := true
    profileFetched := !isContactOrGroup personDetails && env.sections.profile
    cacheAfter := cachePutValue env.cache personDetails.id data env.now
    cacheWritten := true }

/-- Person-card data fetch (lines 46-122): on a fresh cache hit return
the cached record with no network activity; otherwise run the cache-miss
path. -/
def getPersonCardGraphData (env : Env) (personDetails : IDynamicPerson)
    (isMe : Bool) : FetchResult :=
  match cacheGetValue env.cache personDetails.id with
  | some cardState =>
    if getCardStateInvalidationTime env.cacheConfig > env.now - cardState.timeCached then
      { state := cardState.data
        requests := []
        batchExecuted := false
        profileFetched := false
        cacheAfter := env.cache
        cacheWritten := false }
    else fetchMiss env personDetails isMe
  | none => fetchMiss env personDetails isMe

/-- Chat member descriptor (lines 189-198): OData type tag, roles, and
the user binding URL. -/
structure ChatMember where
  odataType : String
  roles : List String
  userBind : String

/-- Chat-creation payload (lines 186-200). -/
structure ChatData where
  chatType : String
  members : List ChatMember

/-- Description of an authenticated POST issued by the chat operations:
path, headers, required scopes, and the JSON body. -/
structure GraphPost (α : Type) where
  path : String
  headers : List (String × String)
  scopes : List String
  body : α

/-- Chat creation (lines 185-206): POST to `/chats` with a no-store
cache header, chat-create scopes, and a one-on-one payload whose two
members bind the current user first and the target person second. -/
def createChat (person : String) (user : String) : GraphPost ChatData :=
  let chatData : ChatData :=
    { chatType := "oneOnOne"
      members :=
        [{ odataType := "#microsoft.graph.aadUserConversationMember"
           roles := ["owner"]
           userBind := "https://graph.microsoft.com/v1.0/users(\x27" ++ user ++ "\x27)" },
         { odataType := "#microsoft.graph.aadUserConversationMember"
           roles := ["owner"]
           userBind := "https://graph.microsoft.com/v1.0/users(\x27" ++ person ++ "\x27)" }] }
  { path := "/chats"
    headers := [("Cache-Control", "no-store")]
    scopes := validCreateChatScopes
    body := chatData }

/-- Message send (lines 218-227): POST the message body to the chat's
messages endpoint with a no-store cache header and message-send scopes. -/
def sendMessage (chatId : String) (messageData : JSValue) : GraphPost JSValue :=
  { path := "/chats/" ++ chatId ++ "/messages"
    headers := [("Cache-Control", "no-store")]
    scopes := validSendChatMessageScopes
    body := messageData }

/-! ### Association-list lemmas for card states and the cache -/

theorem getState_eraseKey_ne (d : CardState) (k k' : String) (h : k' ≠ k) :
    getState (eraseKey d k) k' = getState d k' := by
  induction d with
  | nil => rfl
  | cons kv rest ih =>
    obtain ⟨k1, v1⟩ := kv
    by_cases hk : k1 = k
    · rw [eraseKey, if_pos hk, ih]
      conv_rhs => rw [getState]
      rw [if_neg (by rw [hk]; exact fun e => h e.symm)]
    · rw [eraseKey, if_neg hk]
      conv_lhs => rw [getState]
      conv_rhs => rw [getState]
      by_cases hk1 : k1 = k'
      · rw [if_pos hk1, if_pos hk1]
      · rw [if_neg hk1, if_neg hk1]
        exact ih

theorem getState_setField_self (d : CardState) (k : String) (v : JSValue) :
    getState (setField d k v) k = some v := by
  rw [setField, getState, if_pos rfl]

theorem getState_setField_ne (d : CardState) (k k' : String) (v : JSValue)
    (h : k' ≠ k) :
    getState (setField d k v) k' = getState d k' := by
  rw [setField, getState, if_neg (fun e => h e.symm)]
  exact getState_eraseKey_ne d k k' h

theorem cacheGetValue_cachePutValue_self (cache : CardCache) (key : String)
    (data : CardState) (now : Int) :
    cacheGetValue (cachePutValue cache key data now) key =
      some { data := data, timeCached := now } := by
  rw [cachePutValue, cacheGetValue, if_pos rfl]

/-! ### Dispatch lemmas for the cache check -/

/-- A call is a cache miss when no fresh entry exists for the id (the
entry is absent, or stale). -/
def cacheMiss (env : Env) (userId : String) : Prop :=
  ∀ cs, cacheGetValue env.cache userId = some cs →
    ¬ getCardStateInvalidationTime env.cacheConfig > env.now - cs.timeCached

theorem getPersonCardGraphData_hit (env : Env) (personDetails : IDynamicPerson)
    (isMe : Bool) (cs : CacheCardState)
    (hget : cacheGetValue env.cache personDetails.id = some cs)
    (hfresh : getCardStateInvalidationTime env.cacheConfig > env.now - cs.timeCached) :
    getPersonCardGraphData env personDetails isMe =
      { state := cs.data, requests := [], batchExecuted := false,
        profileFetched := false, cacheAfter := env.cache, cacheWritten := false } := by
  unfold getPersonCardGraphData
  rw [hget]
  exact if_pos hfresh

theorem getPersonCardGraphData_miss (env : Env) (personDetails : IDynamicPerson)
    (isMe : Bool) (hmiss : cacheMiss env personDetails.id) :
    getPersonCardGraphData env personDetails isMe = fetchMiss env personDetails isMe := by
  unfold getPersonCardGraphData
  cases hget : cacheGetValue env.cache personDetails.id with
  | none => rfl
  | some cs => exact if_neg (hmiss cs hget)

/-! ### Response-merge lemmas -/

theorem foldl_setField_not_mem (resp : List (String × JSValue)) (acc : CardState)
    (k : String) (h : k ∉ resp.map Prod.fst) :
    getState (resp.foldl (fun d kv => setField d kv.1 (extractPayload kv.2)) acc) k =
      getState acc k := by
  induction resp generalizing acc with
  | nil => rfl
  | cons kv rest ih =>
    simp only [List.map_cons, List.mem_cons] at h
    push_neg at h
    rw [List.foldl_cons, ih _ h.2, getState_setField_ne _ _ _ _ h.1]

theorem mergeResponses_not_mem (resp : List (String × JSValue)) (k : String)
    (h : k ∉ resp.map Prod.fst) :
    getState (mergeResponses resp) k = none :=
  foldl_setField_not_mem resp [] k h

theorem mergeResponses_mem (resp : List (String × JSValue)) (k : String)
    (c : JSValue) (hnd : (resp.map Prod.fst).Nodup) (hmem : (k, c) ∈ resp) :
    getState (mergeResponses resp) k = some (extractPayload c) := by
  suffices hgen : ∀ acc : CardState,
      getState (resp.foldl (fun d kv => setField d kv.1 (extractPayload kv.2)) acc) k =
        some (extractPayload c) from hgen []
  induction resp with
  | nil => cases hmem
  | cons kv rest ih =>
    intro acc
    simp only [List.map_cons, List.nodup_cons] at hnd
    rw [List.foldl_cons]
    rcases List.mem_cons.mp hmem with heq | hmem2
    · have hk : kv.1 = k := by rw [← heq]
      have hc : kv.2 = c := by rw [← heq]
      rw [foldl_setField_not_mem rest _ k (hk ▸ hnd.1), hk, hc,
        getState_setField_self]
    · exact ih hnd.2 hmem2 _

/-! ### Direct-reports filter lemmas -/

theorem filterDirectReports_getState_ne (d : CardState) (k : String)
    (h : k ≠ "directReports") :
    getState (filterDirectReports d) k = getState d k := by
  unfold filterDirectReports
  split
  · split
    · exact getState_setField_ne _ _ _ _ h
    · rfl
  · rfl

theorem filterDirectReports_of_none (d : CardState)
    (h : getState d "directReports" = none) :
    filterDirectReports d = d := by
  unfold filterDirectReports
  rw [h]

theorem filterDirectReports_arr (d : CardState) (xs : List JSValue)
    (h : getState d "directReports" = some (JSValue.arr xs)) (hne : xs ≠ []) :
    getState (filterDirectReports d) "directReports" =
      some (JSValue.arr (xs.filter (fun report =>
        (report.getField "accountEnabled").truthy))) := by
  unfold filterDirectReports
  rw [h]
  dsimp only
  rw [if_pos (List.length_pos.mpr hne)]
  exact getState_setField_self _ _ _

theorem filterDirectReports_truthy (d : CardState) (xs : List JSValue)
    (h : getState (filterDirectReports d) "directReports" = some (JSValue.arr xs)) :
    ∀ v ∈ xs, (v.getField "accountEnabled").truthy = true := by
  unfold filterDirectReports at h
  split at h
  · rename_i reports heq
    split at h
    · rw [getState_setField_self] at h
      obtain ⟨rfl⟩ : xs = reports.filter (fun report =>
          (report.getField "accountEnabled").truthy) := by
        injection h with h1
        injection h1 with h2
        exact h2.symm
      intro v hv
      exact (List.mem_filter.mp hv).2
    · rename_i hlen
      rw [heq] at h
      injection h with h1
      injection h1 with h2
      intro v hv
      rw [← h2] at hv
      have : reports.length = 0 := Nat.eq_zero_of_not_pos hlen
      rw [List.length_eq_zero.mp this] at hv
      cases hv
  · rename_i hnotarr
    exfalso
    exact hnotarr _ h

/-! ### Assembly lemmas -/

theorem assembleCardData_profile_none (env : Env) (personDetails : IDynamicPerson)
    (h : env.profileOutcome = none) :
    assembleCardData env personDetails = batchData env.batchOutcome := by
  unfold assembleCardData
  rw [h]
  split <;> rfl

theorem assembleCardData_getState_ne_profile (env : Env)
    (personDetails : IDynamicPerson) (k : String) (h : k ≠ "profile") :
    getState (assembleCardData env personDetails) k =
      getState (batchData env.batchOutcome) k := by
  unfold assembleCardData
  split
  · cases env.profileOutcome with
    | none => rfl
    | some p =>
      dsimp only
      split
      · exact getState_setField_ne _ _ _ _ h
      · rfl
  · rfl

/-! ### Batch-assembly membership lemmas -/

theorem mem_buildOrgStructureRequest (batch : List BatchRequest) (userId : String)
    (req : BatchRequest) (h : req ∈ buildOrgStructureRequest batch userId) :
    req ∈ batch ∨ req.key = batchKeys.person ∨ req.key = batchKeys.directReports := by
  simp only [buildOrgStructureRequest, batchGet, List.append_assoc,
    List.mem_append, List.mem_singleton] at h
  rcases h with h | h | h
  · exact Or.inl h
  · right; left; rw [h]
  · right; right; rw [h]

theorem mem_buildWorksWithRequest (batch : List BatchRequest) (userId : String)
    (req : BatchRequest) (h : req ∈ buildWorksWithRequest batch userId) :
    req ∈ batch ∨ req.key = batchKeys.people := by
  simp only [buildWorksWithRequest, batchGet, List.mem_append,
    List.mem_singleton] at h
  rcases h with h | h
  · exact Or.inl h
  · right; rw [h]

theorem mem_buildMessagesWithUserRequest (batch : List BatchRequest)
    (emailAddress : String) (req : BatchRequest)
    (h : req ∈ buildMessagesWithUserRequest batch emailAddress) :
    req ∈ batch ∨ req.key = batchKeys.messages := by
  simp only [buildMessagesWithUserRequest, batchGet, List.mem_append,
    List.mem_singleton] at h
  rcases h with h | h
  · exact Or.inl h
  · right; rw [h]

theorem mem_buildFilesRequest (batch : List BatchRequest)
    (emailAddress : Option String) (req : BatchRequest)
    (h : req ∈ buildFilesRequest batch emailAddress) :
    req ∈ batch ∨ req.key = batchKeys.files := by
  simp only [buildFilesRequest, batchGet, List.mem_append,
    List.mem_singleton] at h
  rcases h with h | h
  · exact Or.inl h
  · right; rw [h]

theorem addOrgRequests_of_contactOrGroup (sections : PersonCardSections)
    (personDetails : IDynamicPerson) (batch : List BatchRequest)
    (h : isContactOrGroup personDetails = true) :
    addOrgRequests sections personDetails batch = batch := by
  unfold addOrgRequests
  rw [h]
  rfl

theorem mem_addOrgRequests (sections : PersonCardSections)
    (personDetails : IDynamicPerson) (batch : List BatchRequest)
    (req : BatchRequest) (h : req ∈ addOrgRequests sections personDetails batch) :
    req ∈ batch ∨ req.key = batchKeys.person ∨ req.key = batchKeys.directReports ∨
      req.key = batchKeys.people := by
  unfold addOrgRequests at h
  split at h
  · split at h
    · rename_i org
      split at h
      · rcases mem_buildWorksWithRequest _ _ _ h with h2 | h2
        · rcases mem_buildOrgStructureRequest _ _ _ h2 with h3 | h3 | h3
          · exact Or.inl h3
          · exact Or.inr (Or.inl h3)
          · exact Or.inr (Or.inr (Or.inl h3))
        · exact Or.inr (Or.inr (Or.inr h2))
      · rcases mem_buildOrgStructureRequest _ _ _ h with h3 | h3 | h3
        · exact Or.inl h3
        · exact Or.inr (Or.inl h3)
        · exact Or.inr (Or.inr (Or.inl h3))
    · exact Or.inl h
  · exact Or.inl h

theorem mem_addMessagesRequest (sections : PersonCardSections)
    (email : Option String) (batch : List BatchRequest) (req : BatchRequest)
    (h : req ∈ addMessagesRequest sections email batch) :
    req ∈ batch ∨ req.key = batchKeys.messages := by
  unfold addMessagesRequest at h
  split at h
  · split at h
    · exact mem_buildMessagesWithUserRequest _ _ _ h
    · exact Or.inl h
  · exact Or.inl h

theorem mem_addFilesRequest (sections : PersonCardSections) (email : Option String)
    (isMe : Bool) (batch : List BatchRequest) (req : BatchRequest)
    (h : req ∈ addFilesRequest sections email isMe batch) :
    req ∈ batch ∨ req.key = batchKeys.files := by
  unfold addFilesRequest at h
  split at h
  · exact mem_buildFilesRequest _ _ _ h
  · exact Or.inl h

theorem buildBatch_key (sections : PersonCardSections)
    (personDetails : IDynamicPerson) (isMe : Bool) (req : BatchRequest)
    (h : req ∈ buildBatch sections personDetails isMe) :
    req.key = batchKeys.person ∨ req.key = batchKeys.directReports ∨
      req.key = batchKeys.people ∨ req.key = batchKeys.messages ∨
      req.key = batchKeys.files := by
  unfold buildBatch at h
  rcases mem_addFilesRequest _ _ _ _ _ h with h1 | h1
  · rcases mem_addMessagesRequest _ _ _ _ h1 with h2 | h2
    · rcases mem_addOrgRequests _ _ _ _ h2 with h3 | h3 | h3 | h3
      · cases h3
      · exact Or.inl h3
      · exact Or.inr (Or.inl h3)
      · exact Or.inr (Or.inr (Or.inl h3))
    · exact Or.inr (Or.inr (Or.inr (Or.inl h2)))
  · exact Or.inr (Or.inr (Or.inr (Or.inr h1)))

theorem buildBatch_key_ne_profile (sections : PersonCardSections)
    (personDetails : IDynamicPerson) (isMe : Bool) (req : BatchRequest)
    (h : req ∈ buildBatch sections personDetails isMe) :
    req.key ≠ "profile" := by
  rcases buildBatch_key _ _ _ _ h with h1 | h1 | h1 | h1 | h1 <;>
    rw [h1] <;> decide

/-! ### Claim theorems -/

/-- C1: for every entity reference, if the cache holds an entry for the
entity id whose age (now minus its cached timestamp) is less than the
invalidation period, `getPersonCardGraphData` returns that cached entry
unchanged and issues zero network calls: no batch is created or executed
(the request list is empty and the batch is not run), no profile fetch
occurs, and the cache is untouched. -/
theorem C1_fresh_cache_hit (env : Env) (personDetails : IDynamicPerson)
    (isMe : Bool) (cs : CacheCardState)
    (hget : cacheGetValue env.cache personDetails.id = some cs)
    (hfresh : getCardStateInvalidationTime env.cacheConfig > env.now - cs.timeCached) :
    (getPersonCardGraphData env personDetails isMe).state = cs.data ∧
    (getPersonCardGraphData env personDetails isMe).requests = [] ∧
    (getPersonCardGraphData env personDetails isMe).batchExecuted = false ∧
    (getPersonCardGraphData env personDetails isMe).profileFetched = false ∧
    (getPersonCardGraphData env personDetails isMe).cacheWritten = false := by
  rw [getPersonCardGraphData_hit env personDetails isMe cs hget hfresh]
  exact ⟨rfl, rfl, rfl, rfl, rfl⟩

/-- Cached entry used by the C1 witness. -/
def csC1 : CacheCardState :=
  { data := [("person", JSValue.obj [("displayName", JSValue.str "Megan Bowen")])]
    timeCached := 100 }

/-- Environment used by the C1 witness: a fresh entry for `u1` cached at
time 100, clock at 1000, invalidation period 3600000. -/
def envC1 : Env :=
  { sections :=
      { organization := some { showWorksWith := true }
        mailMessages := true, files := true, profile := true }
    cacheConfig := { usersInvalidationPeriod := 0, defaultInvalidationPeriod := 3600000 }
    now := 1000
    cache := [("u1", csC1)]
    batchOutcome := some []
    profileOutcome := some JSValue.nul }

/-- Entity reference used by the C1 witness. -/
def personC1 : IDynamicPerson :=
  { id := "u1", hasClassification := false, personType := none
    mail := some "megan@contoso.com" }

/-- Witness for C1 at a concrete fresh-cache environment. -/
theorem C1_witness :
    cacheGetValue envC1.cache personC1.id = some csC1 ∧
    getCardStateInvalidationTime envC1.cacheConfig > envC1.now - csC1.timeCached ∧
    ((getPersonCardGraphData envC1 personC1 false).state = csC1.data ∧
     (getPersonCardGraphData envC1 personC1 false).requests = [] ∧
     (getPersonCardGraphData envC1 personC1 false).batchExecuted = false ∧
     (getPersonCardGraphData envC1 personC1 false).profileFetched = false ∧
     (getPersonCardGraphData envC1 personC1 false).cacheWritten = false) :=
  ⟨rfl, by decide, C1_fresh_cache_hit envC1 personC1 false csC1 rfl (by decide)⟩

/-- C2: for every invocation in which batch execution throws
(`batchOutcome = none`) on a cache miss, the operation still resolves
(the embedding is a total function returning a `FetchResult`) and the
thrown error is treated as an empty result set: the returned record holds
no batch-derived field, i.e. every key other than `profile` (which only
the separate profile fetch can set) is absent. -/
theorem C2_batch_throw_swallowed (env : Env) (personDetails : IDynamicPerson)
    (isMe : Bool) (hmiss : cacheMiss env personDetails.id)
    (hthrow : env.batchOutcome = none) :
    (getPersonCardGraphData env personDetails isMe).batchExecuted = true ∧
    ∀ k, k ≠ "profile" →
      getState (getPersonCardGraphData env personDetails isMe).state k = none := by
  rw [getPersonCardGraphData_miss env personDetails isMe hmiss]
  refine ⟨rfl, fun k hk => ?_⟩
  show getState (filterDirectReports (assembleCardData env personDetails)) k = none
  have hbatch : getState (batchData env.batchOutcome) "directReports" = none := by
    rw [hthrow]; rfl
  have hdr : getState (assembleCardData env personDetails) "directReports" = none := by
    rw [assembleCardData_getState_ne_profile env personDetails _ (by decide)]
    exact hbatch
  rw [filterDirectReports_of_none _ hdr,
    assembleCardData_getState_ne_profile env personDetails k hk, hthrow]
  rfl

/-- Environment used by the C2 witness: empty cache, all sections enabled,
batch execution throwing, profile fetch resolving. -/
def envC2 : Env :=
  { sections :=
      { organization := some { showWorksWith := true }
        mailMessages := true, files := true, profile := true }
    cacheConfig := { usersInvalidationPeriod := 0, defaultInvalidationPeriod := 3600000 }
    now := 1000
    cache := []
    batchOutcome := none
    profileOutcome := some (JSValue.obj [("skills", JSValue.arr [])]) }

/-- Entity reference used by the C2 witness. -/
def personC2 : IDynamicPerson :=
  { id := "u2", hasClassification := false, personType := none
    mail := some "user2@contoso.com" }

/-- Witness for C2 at a concrete environment whose batch execution throws. -/
theorem C2_witness :
    cacheMiss envC2 personC2.id ∧
    envC2.batchOutcome = none ∧
    ((getPersonCardGraphData envC2 personC2 false).batchExecuted = true ∧
     ∀ k, k ≠ "profile" →
       getState (getPersonCardGraphData envC2 personC2 false).state k = none) :=
  ⟨fun _ h => Option.noConfusion h, rfl,
    C2_batch_throw_swallowed envC2 personC2 false
      (fun _ h => Option.noConfusion h) rfl⟩

/-- C3: for every state returned on a cache miss, the returned state is
exactly the assembled record after the direct-reports post-filter; the
returned `directReports` list (when it is an array) contains no entry
whose `accountEnabled` is `false` (every surviving entry has truthy
`accountEnabled`), and every field other than `directReports` is
unchanged by the post-filter. -/
theorem C3_direct_reports_no_disabled (env : Env) (personDetails : IDynamicPerson)
    (isMe : Bool) (hmiss : cacheMiss env personDetails.id) :
    (getPersonCardGraphData env personDetails isMe).state =
      filterDirectReports (assembleCardData env personDetails) ∧
    (∀ xs, getState (getPersonCardGraphData env personDetails isMe).state
        "directReports" = some (JSValue.arr xs) →
      ∀ v ∈ xs, (v.getField "accountEnabled").truthy = true ∧
        v.getField "accountEnabled" ≠ JSValue.bool false) ∧
    (∀ k, k ≠ "directReports" →
      getState (getPersonCardGraphData env personDetails isMe).state k =
        getState (assembleCardData env personDetails) k) := by
  rw [getPersonCardGraphData_miss env personDetails isMe hmiss]
  refine ⟨rfl, fun xs h v hv => ?_, fun k hk => ?_⟩
  · have ht := filterDirectReports_truthy _ _ h v hv
    refine ⟨ht, fun hfalse => ?_⟩
    rw [hfalse] at ht
    cases ht
  · exact filterDirectReports_getState_ne _ _ hk

/-- Environment used by the C3 witness: the batch returns a mix of an
enabled and a disabled direct report. -/
def envC3 : Env :=
  { sections :=
      { organization := some { showWorksWith := false }
        mailMessages := false, files := false, profile := false }
    cacheConfig := { usersInvalidationPeriod := 0, defaultInvalidationPeriod := 3600000 }
    now := 1000
    cache := []
    batchOutcome := some
      [("directReports", JSValue.obj [("value", JSValue.arr
        [JSValue.obj [("id", JSValue.str "r1"), ("accountEnabled", JSValue.bool true)],
         JSValue.obj [("id", JSValue.str "r2"), ("accountEnabled", JSValue.bool false)]])])]
    profileOutcome := none }

/-- Entity reference used by the C3 witness. -/
def personC3 : IDynamicPerson :=
  { id := "u3", hasClassification := false, personType := none, mail := none }

/-- Witness for C3 at a concrete environment with mixed direct reports. -/
theorem C3_witness :
    cacheMiss envC3 personC3.id ∧
    ((getPersonCardGraphData envC3 personC3 false).state =
       filterDirectReports (assembleCardData envC3 personC3) ∧
     (∀ xs, getState (getPersonCardGraphData envC3 personC3 false).state
         "directReports" = some (JSValue.arr xs) →
       ∀ v ∈ xs, (v.getField "accountEnabled").truthy = true ∧
         v.getField "accountEnabled" ≠ JSValue.bool false) ∧
     (∀ k, k ≠ "directReports" →
       getState (getPersonCardGraphData envC3 personC3 false).state k =
         getState (assembleCardData envC3 personC3) k)) :=
  ⟨fun _ h => Option.noConfusion h,
    C3_direct_reports_no_disabled envC3 personC3 false
      (fun _ h => Option.noConfusion h)⟩

/-- C4: for every entity reference classified as a contact or group, on a
cache miss `getPersonCardGraphData` never enqueues the org-structure batch
entries (no request named `person` or `directReports` is registered) and
never attempts the extended-profile fetch, for every section
configuration. -/
theorem C4_contact_or_group_requests (env : Env) (personDetails : IDynamicPerson)
    (isMe : Bool) (hcg : isContactOrGroup personDetails = true)
    (hmiss : cacheMiss env personDetails.id) :
    (getPersonCardGraphData env personDetails isMe).profileFetched = false ∧
    ∀ req ∈ (getPersonCardGraphData env personDetails isMe).requests,
      req.key ≠ batchKeys.person ∧ req.key ≠ batchKeys.directReports := by
  rw [getPersonCardGraphData_miss env personDetails isMe hmiss]
  constructor
  · show (!isContactOrGroup personDetails && env.sections.profile) = false
    rw [hcg]
    rfl
  · intro req hreq
    have hb : req ∈ buildBatch env.sections personDetails isMe := hreq
    unfold buildBatch at hb
    rcases mem_addFilesRequest _ _ _ _ _ hb with h1 | h1
    · rcases mem_addMessagesRequest _ _ _ _ h1 with h2 | h2
      · rw [addOrgRequests_of_contactOrGroup _ _ _ hcg] at h2
        cases h2
      · rw [h2]
        exact ⟨by decide, by decide⟩
    · rw [h1]
      exact ⟨by decide, by decide⟩

/-- Environment used by the C4 witness: every section enabled. -/
def envC4 : Env :=
  { sections :=
      { organization := some { showWorksWith := true }
        mailMessages := true, files := true, profile := true }
    cacheConfig := { usersInvalidationPeriod := 0, defaultInvalidationPeriod := 3600000 }
    now := 1000
    cache := []
    batchOutcome := some []
    profileOutcome := some JSValue.nul }

/-- Entity reference used by the C4 witness: a personal contact. -/
def personC4 : IDynamicPerson :=
  { id := "c4", hasClassification := false
    personType := some { subclass := some "PersonalContact", cls := some "Person" }
    mail := some "contact@outlook.com" }

/-- Witness for C4 at a concrete contact entity with all sections on. -/
theorem C4_witness :
    isContactOrGroup personC4 = true ∧
    cacheMiss envC4 personC4.id ∧
    ((getPersonCardGraphData envC4 personC4 false).profileFetched = false ∧
     ∀ req ∈ (getPersonCardGraphData envC4 personC4 false).requests,
       req.key ≠ batchKeys.person ∧ req.key ≠ batchKeys.directReports) :=
  ⟨by decide, fun _ h => Option.noConfusion h,
    C4_contact_or_group_requests envC4 personC4 false (by decide)
      (fun _ h => Option.noConfusion h)⟩

/-- Enabled direct report used in the C5 refutation. -/
def drEnabledC5 : JSValue :=
  JSValue.obj [("id", JSValue.str "r1"), ("accountEnabled", JSValue.bool true)]

/-- Disabled direct report used in the C5 refutation. -/
def drDisabledC5 : JSValue :=
  JSValue.obj [("id", JSValue.str "r2"), ("accountEnabled", JSValue.bool false)]

/-- Batch responses used in the C5 refutation: a successful
`directReports` response listing one enabled and one disabled report. -/
def respC5 : List (String × JSValue) :=
  [("directReports", JSValue.obj [("value", JSValue.arr [drEnabledC5, drDisabledC5])])]

/-- Environment used in the C5 refutation: cache empty, organization and
profile sections enabled, batch succeeding with `respC5`, profile fetch
throwing. -/
def envC5 : Env :=
  { sections :=
      { organization := some { showWorksWith := false }
        mailMessages := false, files := false, profile := true }
    cacheConfig := { usersInvalidationPeriod := 0, defaultInvalidationPeriod := 3600000 }
    now := 1000
    cache := []
    batchOutcome := some respC5
    profileOutcome := none }

/-- Entity reference used in the C5 refutation. -/
def personC5 : IDynamicPerson :=
  { id := "u5", hasClassification := false, personType := none, mail := none }

/-- Refutation of C5 as stated: with the profile fetch throwing (profile
section enabled, plain user), the batch-derived `directReports` field is
NOT retained unchanged in the returned record — the disabled entry is
removed by the post-filter, so the returned value differs from the field
obtained from the batch response. -/
theorem C5_counterexample :
    envC5.profileOutcome = none ∧
    envC5.sections.profile = true ∧
    isContactOrGroup personC5 = false ∧
    getState (mergeResponses respC5) "directReports" =
      some (JSValue.arr [drEnabledC5, drDisabledC5]) ∧
    getState (getPersonCardGraphData envC5 personC5 false).state "directReports" =
      some (JSValue.arr [drEnabledC5]) ∧
    JSValue.arr [drEnabledC5] ≠ JSValue.arr [drEnabledC5, drDisabledC5] :=
  ⟨rfl, rfl, rfl, rfl, rfl, by simp [drEnabledC5, drDisabledC5]⟩

/-- C5 (amended): for every invocation in which the separate profile fetch
throws on a cache miss, the call still resolves, the returned record has
no `profile` key (no batch request is even registered under that name),
every batch-derived field other than `directReports` is retained
unchanged, and `directReports` is retained up to the disabled-accounts
post-filter. -/
theorem C5_profile_throw_amended (env : Env) (personDetails : IDynamicPerson)
    (isMe : Bool) (resp : List (String × JSValue))
    (hmiss : cacheMiss env personDetails.id)
    (hcg : isContactOrGroup personDetails = false)
    (hprof : env.sections.profile = true)
    (hthrow : env.profileOutcome = none)
    (hb : env.batchOutcome = some resp)
    (hnp : "profile" ∉ resp.map Prod.fst) :
    getState (getPersonCardGraphData env personDetails isMe).state "profile" = none ∧
    (∀ k, k ≠ "directReports" →
      getState (getPersonCardGraphData env personDetails isMe).state k =
        getState (mergeResponses resp) k) ∧
    (∀ xs, getState (mergeResponses resp) "directReports" = some (JSValue.arr xs) →
      xs ≠ [] →
      getState (getPersonCardGraphData env personDetails isMe).state "directReports" =
        some (JSValue.arr (xs.filter (fun report =>
          (report.getField "accountEnabled").truthy)))) ∧
    (∀ req ∈ (getPersonCardGraphData env personDetails isMe).requests,
      req.key ≠ "profile") := by
  rw [getPersonCardGraphData_miss env personDetails isMe hmiss]
  have hae : assembleCardData env personDetails = mergeResponses resp := by
    rw [assembleCardData_profile_none env personDetails hthrow, hb]
    rfl
  have hstate : (fetchMiss env personDetails isMe).state =
      filterDirectReports (mergeResponses resp) := by
    show filterDirectReports (assembleCardData env personDetails) =
      filterDirectReports (mergeResponses resp)
    rw [hae]
  refine ⟨?_, fun k hk => ?_, fun xs hxs hne => ?_, fun req hreq => ?_⟩
  · rw [hstate, filterDirectReports_getState_ne _ _ (by decide)]
    exact mergeResponses_not_mem resp _ hnp
  · rw [hstate]
    exact filterDirectReports_getState_ne _ _ hk
  · rw [hstate]
    exact filterDirectReports_arr _ _ hxs hne
  · exact buildBatch_key_ne_profile env.sections personDetails isMe req hreq

/-- Witness for the amended C5 at the concrete environment of the
refutation. -/
theorem C5_witness :
    cacheMiss envC5 personC5.id ∧
    isContactOrGroup personC5 = false ∧
    envC5.sections.profile = true ∧
    envC5.profileOutcome = none ∧
    envC5.batchOutcome = some respC5 ∧
    "profile" ∉ respC5.map Prod.fst ∧
    (getState (getPersonCardGraphData envC5 personC5 false).state "profile" = none ∧
     (∀ k, k ≠ "directReports" →
       getState (getPersonCardGraphData envC5 personC5 false).state k =
         getState (mergeResponses respC5) k) ∧
     (∀ xs, getState (mergeResponses respC5) "directReports" = some (JSValue.arr xs) →
       xs ≠ [] →
       getState (getPersonCardGraphData envC5 personC5 false).state "directReports" =
         some (JSValue.arr (xs.filter (fun report =>
           (report.getField "accountEnabled").truthy)))) ∧
     (∀ req ∈ (getPersonCardGraphData envC5 personC5 false).requests,
       req.key ≠ "profile")) :=
  ⟨fun _ h => Option.noConfusion h, rfl, rfl, rfl, rfl, by decide,
    C5_profile_throw_amended envC5 personC5 false respC5
      (fun _ h => Option.noConfusion h) rfl rfl rfl rfl (by decide)⟩

/-- Refutation of C6 as stated: the `directReports` entry registered by
`buildOrgStructureRequest` carries no permission scopes at all (the
`batch.get` call omits the scopes argument), so not every entry registered
by the request builders has a non-empty scope set. -/
theorem C6_counterexample :
    (buildOrgStructureRequest [] "u").map BatchRequest.scopes =
      [some validUserByIdScopes, none] ∧
    ¬ ∀ req ∈ buildOrgStructureRequest [] "u",
        ∃ scopes, req.scopes = some scopes ∧ scopes ≠ [] := by
  refine ⟨rfl, fun h => ?_⟩
  obtain ⟨scopes, hs, -⟩ := h
    { key := batchKeys.directReports
      path := "users/" ++ "u" ++ "/directReports?$select=" ++ userProperties
      scopes := none, headers := [] }
    (by simp [buildOrgStructureRequest, batchGet])
  cases hs

/-- C6 (amended): every batch entry registered by the request builders
carries a fixed non-empty set of required permission scopes, except
org-structure's `directReports` entry, which is registered with no scopes
at all. -/
theorem C6_builder_scopes (batch : List BatchRequest)
    (userId emailAddress : String) (oe : Option String) :
    ((buildOrgStructureRequest batch userId).map BatchRequest.scopes =
        batch.map BatchRequest.scopes ++ [some validUserByIdScopes, none] ∧
      validUserByIdScopes ≠ []) ∧
    ((buildWorksWithRequest batch userId).map BatchRequest.scopes =
        batch.map BatchRequest.scopes ++ [some validPeopleScopes] ∧
      validPeopleScopes ≠ []) ∧
    ((buildMessagesWithUserRequest batch emailAddress).map BatchRequest.scopes =
        batch.map BatchRequest.scopes ++ [some validMailSearchScopes] ∧
      validMailSearchScopes ≠ []) ∧
    ((buildFilesRequest batch oe).map BatchRequest.scopes =
        batch.map BatchRequest.scopes ++ [some validInsightScopes] ∧
      validInsightScopes ≠ []) := by
  refine ⟨⟨?_, by decide⟩, ⟨?_, by decide⟩, ⟨?_, by decide⟩, ⟨?_, by decide⟩⟩
  · simp [buildOrgStructureRequest, batchGet]
  · simp [buildWorksWithRequest, batchGet]
  · simp [buildMessagesWithUserRequest, batchGet]
  · simp [buildFilesRequest, batchGet]

theorem optChainField_eq_getField (c : JSValue) (k : String) :
    optChainField c k = c.getField k := by
  cases c <;> rfl

theorem extractPayload_eq (c : JSValue) :
    extractPayload c =
      if (c.getField "value").truthy then c.getField "value" else c := by
  simp only [extractPayload, optChainField_eq_getField]

/-- Batch responses used in the C7 refutation: the `person` response
content has a `value` field that is present but null. -/
def respC7 : List (String × JSValue) :=
  [("person", JSValue.obj [("value", JSValue.nul)])]

/-- Environment used in the C7 refutation and witness. -/
def envC7 : Env :=
  { sections :=
      { organization := some { showWorksWith := false }
        mailMessages := false, files := false, profile := false }
    cacheConfig := { usersInvalidationPeriod := 0, defaultInvalidationPeriod := 3600000 }
    now := 1000
    cache := []
    batchOutcome := some respC7
    profileOutcome := none }

/-- Entity reference used in the C7 refutation and witness. -/
def personC7 : IDynamicPerson :=
  { id := "u7", hasClassification := false, personType := none, mail := none }

/-- Refutation of C7 as stated: the `person` response content has a
`value` field (it is present, with value `null`), yet the stored result is
the raw content, not that `value` field — `content?.value || content`
falls back to the raw content whenever the `value` field is falsy, not
only when it is absent. -/
theorem C7_counterexample :
    envC7.batchOutcome = some [("person", JSValue.obj [("value", JSValue.nul)])] ∧
    getState (getPersonCardGraphData envC7 personC7 false).state "person" =
      some (JSValue.obj [("value", JSValue.nul)]) ∧
    some (JSValue.obj [("value", JSValue.nul)]) ≠ some JSValue.nul :=
  ⟨rfl, rfl, by simp⟩

/-- C7 (amended): for every successful named response in the executed
batch's result map (distinct names; names other than `directReports`,
which is post-filtered, and `profile`, which the profile fetch may
overwrite), `getPersonCardGraphData` stores under that name the extracted
payload, which is the content's `value` field whenever that field is
present AND truthy, and the raw content otherwise (absent or falsy
`value`). -/
theorem C7_payload_extraction (env : Env) (personDetails : IDynamicPerson)
    (isMe : Bool) (resp : List (String × JSValue))
    (hmiss : cacheMiss env personDetails.id)
    (hb : env.batchOutcome = some resp)
    (hnd : (resp.map Prod.fst).Nodup) :
    (∀ k c, (k, c) ∈ resp → k ≠ "directReports" → k ≠ "profile" →
      getState (getPersonCardGraphData env personDetails isMe).state k =
        some (extractPayload c)) ∧
    (∀ c v, c.getField "value" = v → v.truthy = true → extractPayload c = v) ∧
    (∀ c, (c.getField "value").truthy = false → extractPayload c = c) := by
  rw [getPersonCardGraphData_miss env personDetails isMe hmiss]
  refine ⟨fun k c hmem hkdr hkprof => ?_, fun c v hv htruthy => ?_, fun c hf => ?_⟩
  · show getState (filterDirectReports (assembleCardData env personDetails)) k =
      some (extractPayload c)
    rw [filterDirectReports_getState_ne _ _ hkdr,
      assembleCardData_getState_ne_profile env personDetails k hkprof, hb]
    exact mergeResponses_mem resp k c hnd hmem
  · rw [extractPayload_eq, hv, if_pos htruthy]
  · rw [extractPayload_eq, if_neg (by rw [hf]; exact Bool.false_ne_true)]

/-- Witness for the amended C7 at the concrete environment of the
refutation. -/
theorem C7_witness :
    cacheMiss envC7 personC7.id ∧
    envC7.batchOutcome = some respC7 ∧
    (respC7.map Prod.fst).Nodup ∧
    ((∀ k c, (k, c) ∈ respC7 → k ≠ "directReports" → k ≠ "profile" →
       getState (getPersonCardGraphData envC7 personC7 false).state k =
         some (extractPayload c)) ∧
     (∀ c v, c.getField "value" = v → v.truthy = true → extractPayload c = v) ∧
     (∀ c, (c.getField "value").truthy = false → extractPayload c = c)) :=
  ⟨fun _ h => Option.noConfusion h, rfl, by decide,
    C7_payload_extraction envC7 personC7 false respC7
      (fun _ h => Option.noConfusion h) rfl (by decide)⟩

/-- C8: for every pair of identifiers `person` and `user`,
`createChat person user` posts a payload with chat type `oneOnOne` and
exactly two member descriptors, the first bound to `.../users(<user>)`
and the second to `.../users(<person>)`, each carrying the
`aadUserConversationMember` type tag and the single role `owner`. -/
theorem C8_createChat_payload (person user : String) :
    (createChat person user).body.chatType = "oneOnOne" ∧
    (createChat person user).body.members.length = 2 ∧
    (createChat person user).body.members.map ChatMember.userBind =
      ["https://graph.microsoft.com/v1.0/users(\x27" ++ user ++ "\x27)",
       "https://graph.microsoft.com/v1.0/users(\x27" ++ person ++ "\x27)"] ∧
    ∀ m ∈ (createChat person user).body.members,
      m.odataType = "#microsoft.graph.aadUserConversationMember" ∧
      m.roles = ["owner"] := by
  refine ⟨rfl, rfl, rfl, fun m hm => ?_⟩
  simp only [createChat, List.mem_cons, List.not_mem_nil, or_false] at hm
  rcases hm with rfl | rfl
  · exact ⟨rfl, rfl⟩
  · exact ⟨rfl, rfl⟩

/-- C9: on a cache miss the cache write happens unconditionally before
returning — the returned (possibly empty) record is stored under the
entity id stamped with the current time — and a subsequent fetch for the
same entity within the invalidation period returns exactly that record
with zero network calls. -/
theorem C9_unconditional_cache_write (env : Env) (personDetails : IDynamicPerson)
    (isMe : Bool) (env2 : Env)
    (hmiss : cacheMiss env personDetails.id)
    (hc : env2.cache = (getPersonCardGraphData env personDetails isMe).cacheAfter)
    (hcfg : env2.cacheConfig = env.cacheConfig)
    (hfresh : getCardStateInvalidationTime env.cacheConfig > env2.now - env.now) :
    (getPersonCardGraphData env personDetails isMe).cacheWritten = true ∧
    cacheGetValue (getPersonCardGraphData env personDetails isMe).cacheAfter
        personDetails.id =
      some { data := (getPersonCardGraphData env personDetails isMe).state
             timeCached := env.now } ∧
    (getPersonCardGraphData env2 personDetails isMe).state =
      (getPersonCardGraphData env personDetails isMe).state ∧
    (getPersonCardGraphData env2 personDetails isMe).requests = [] ∧
    (getPersonCardGraphData env2 personDetails isMe).batchExecuted = false ∧
    (getPersonCardGraphData env2 personDetails isMe).profileFetched = false := by
  have h1 := getPersonCardGraphData_miss env personDetails isMe hmiss
  rw [h1]
  have hget : cacheGetValue (fetchMiss env personDetails isMe).cacheAfter
      personDetails.id =
      some { data := (fetchMiss env personDetails isMe).state
             timeCached := env.now } :=
    cacheGetValue_cachePutValue_self env.cache personDetails.id
      (fetchMiss env personDetails isMe).state env.now
  refine ⟨rfl, hget, ?_⟩
  have hget2 : cacheGetValue env2.cache personDetails.id =
      some { data := (fetchMiss env personDetails isMe).state
             timeCached := env.now } := by
    rw [hc, h1]
    exact hget
  have hfresh2 : getCardStateInvalidationTime env2.cacheConfig >
      env2.now - ({ data := (fetchMiss env personDetails isMe).state
                    timeCached := env.now } : CacheCardState).timeCached := by
    rw [hcfg]
    exact hfresh
  rw [getPersonCardGraphData_hit env2 personDetails isMe _ hget2 hfresh2]
  exact ⟨rfl, rfl, rfl, rfl⟩

/-- Environment of the first call in the C9 witness: empty cache, batch
execution throwing, profile fetch throwing — the worst case, writing an
empty record. -/
def envC9 : Env :=
  { sections :=
      { organization := some { showWorksWith := true }
        mailMessages := true, files := true, profile := true }
    cacheConfig := { usersInvalidationPeriod := 0, defaultInvalidationPeriod := 3600000 }
    now := 1000
    cache := []
    batchOutcome := none
    profileOutcome := none }

/-- Entity reference used by the C9 witness. -/
def personC9 : IDynamicPerson :=
  { id := "u9", hasClassification := false, personType := none
    mail := some "user9@contoso.com" }

/-- Environment of the second call in the C9 witness: same configuration,
the cache left by the first call, 500 ms later. -/
def envC9b : Env :=
  { sections := envC9.sections
    cacheConfig := envC9.cacheConfig
    now := 1500
    cache := (getPersonCardGraphData envC9 personC9 false).cacheAfter
    batchOutcome := some []
    profileOutcome := some JSValue.nul }

/-- Witness for C9: the empty record written by a failing first call is
served from the cache by a second call 500 ms later. -/
theorem C9_witness :
    cacheMiss envC9 personC9.id ∧
    envC9b.cache = (getPersonCardGraphData envC9 personC9 false).cacheAfter ∧
    envC9b.cacheConfig = envC9.cacheConfig ∧
    getCardStateInvalidationTime envC9.cacheConfig > envC9b.now - envC9.now ∧
    ((getPersonCardGraphData envC9 personC9 false).cacheWritten = true ∧
     cacheGetValue (getPersonCardGraphData envC9 personC9 false).cacheAfter
         personC9.id =
       some { data := (getPersonCardGraphData envC9 personC9 false).state
              timeCached := envC9.now } ∧
     (getPersonCardGraphData envC9b personC9 false).state =
       (getPersonCardGraphData envC9 personC9 false).state ∧
     (getPersonCardGraphData envC9b personC9 false).requests = [] ∧
     (getPersonCardGraphData envC9b personC9 false).batchExecuted = false ∧
     (getPersonCardGraphData envC9b personC9 false).profileFetched = false) :=
  ⟨fun _ h => Option.noConfusion h, rfl, rfl, by decide,
    C9_unconditional_cache_write envC9 personC9 false envC9b
      (fun _ h => Option.noConfusion h) rfl rfl (by decide)⟩

/-- C10: the direct-reports post-filter keeps exactly the entries with
truthy `accountEnabled`, so an entry whose `accountEnabled` is missing
(`undefined` under field access), `undefined`, or `null` is dropped from
the resulting `directReports` list just like one with `accountEnabled`
`false`. -/
theorem C10_filter_drops_falsy (d : CardState) (xs : List JSValue)
    (h : getState d "directReports" = some (JSValue.arr xs)) (hne : xs ≠ []) :
    getState (filterDirectReports d) "directReports" =
      some (JSValue.arr (xs.filter (fun report =>
        (report.getField "accountEnabled").truthy))) ∧
    ∀ report ∈ xs,
      (report.getField "accountEnabled" = JSValue.undefined ∨
       report.getField "accountEnabled" = JSValue.nul ∨
       report.getField "accountEnabled" = JSValue.bool false) →
      report ∉ xs.filter (fun report =>
        (report.getField "accountEnabled").truthy) := by
  refine ⟨filterDirectReports_arr d xs h hne, fun report _ hfalsy hcontra => ?_⟩
  have ht := (List.mem_filter.mp hcontra).2
  rcases hfalsy with hf | hf | hf <;> rw [hf] at ht <;>
    simp [JSValue.truthy] at ht

/-- Direct report with `accountEnabled: true` (C10 witness). -/
def reportEnabledC10 : JSValue :=
  JSValue.obj [("id", JSValue.str "a"), ("accountEnabled", JSValue.bool true)]

/-- Direct report with `accountEnabled: false` (C10 witness). -/
def reportFalseC10 : JSValue :=
  JSValue.obj [("id", JSValue.str "b"), ("accountEnabled", JSValue.bool false)]

/-- Direct report with `accountEnabled: null` (C10 witness). -/
def reportNullC10 : JSValue :=
  JSValue.obj [("id", JSValue.str "c"), ("accountEnabled", JSValue.nul)]

/-- Direct report with no `accountEnabled` field at all (C10 witness). -/
def reportMissingC10 : JSValue :=
  JSValue.obj [("id", JSValue.str "d")]

/-- Card state used by the C10 witness. -/
def dataC10 : CardState :=
  [("directReports", JSValue.arr
    [reportEnabledC10, reportFalseC10, reportNullC10, reportMissingC10])]

/-- Witness for C10: on a list mixing enabled, false, null and missing
`accountEnabled`, the filter keeps only the enabled entry. -/
theorem C10_witness :
    getState dataC10 "directReports" = some (JSValue.arr
      [reportEnabledC10, reportFalseC10, reportNullC10, reportMissingC10]) ∧
    ([reportEnabledC10, reportFalseC10, reportNullC10, reportMissingC10] :
      List JSValue) ≠ [] ∧
    (getState (filterDirectReports dataC10) "directReports" =
      some (JSValue.arr
        ([reportEnabledC10, reportFalseC10, reportNullC10,
          reportMissingC10].filter (fun report =>
            (report.getField "accountEnabled").truthy))) ∧
     ∀ report ∈ ([reportEnabledC10, reportFalseC10, reportNullC10,
         reportMissingC10] : List JSValue),
       (report.getField "accountEnabled" = JSValue.undefined ∨
        report.getField "accountEnabled" = JSValue.nul ∨
        report.getField "accountEnabled" = JSValue.bool false) →
       report ∉ ([reportEnabledC10, reportFalseC10, reportNullC10,
         reportMissingC10] : List JSValue).filter (fun report =>
           (report.getField "accountEnabled").truthy)) :=
  ⟨rfl, by simp,
    C10_filter_drops_falsy dataC10
      [reportEnabledC10, reportFalseC10, reportNullC10, reportMissingC10]
      rfl (by simp)⟩
